import Mathlib

/-!
Verification development for the ZGraf tunnel-arena core
(entity base class `Vis`, collision engine, projection, tunnel manager).

JavaScript numbers are modelled as exact rationals (ℚ); every arithmetic
operation appearing in the modelled code paths (+, -, *, /, abs, %,
comparisons) is exact on the values those paths manipulate, so ℚ is a
faithful carrier.  The JavaScript remainder operator `%` (sign of the
dividend, truncated quotient) is modelled by `jsMod`.

Configuration constants are taken from `config.js`:
  TUNNEL.length = 65000, TUNNEL.near = 30, TUNNEL.far = 65000,
  TUNNEL.left = -32000, right = 32000, top = -32000, bottom = 32000,
  STEREO.eyeToScreen = 50, STEREO.screenPlaneZ = 5000,
  WIDTH = 640, HEIGHT = 480, SPEED_FACTOR = 0.5.
-/

namespace ZGraf

/-- JavaScript `a % b`: remainder with truncated quotient
(result has the sign of the dividend). -/
def jsMod (a b : ℚ) : ℚ :=
  a - b * (if 0 ≤ a / b then ((⌊a / b⌋ : ℤ) : ℚ) else ((⌈a / b⌉ : ℤ) : ℚ))

/-- Model of `Vis.wrapZ`: `this.z = ((this.z % len) + len) % len` with `len = 65000`. -/
def jsWrap (z : ℚ) : ℚ := jsMod (jsMod z 65000 + 65000) 65000

/-- Shortest signed wrapped distance on the depth axis, as computed in
`Vis.getZFromPlayer`: a single `±len` correction when the raw difference
exceeds `len/2` in magnitude (`len = 65000`). -/
def wrapDist (d : ℚ) : ℚ :=
  if d > 65000 / 2 then d - 65000
  else if d < -(65000 / 2) then d + 65000
  else d

/-- Model of `Vis.getZFromPlayer(playerZ)`: wrapped depth of an entity at `selfZ`
relative to an observer at `playerZ`. -/
def getZFromPlayer (selfZ playerZ : ℚ) : ℚ := wrapDist (selfZ - playerZ)

/-! ### Explosion / formation animation record (`vis.js`: `initExpl`,
`initForm`, `incrExpl`) -/

/-- The `this.expl` record: six grid-line positions and five cumulative lane
offsets per axis, the signed per-step increment, the hit lane per axis, the
current step counter, and the total step count. -/
structure Expl where
  xLine : Fin 6 → ℚ
  yLine : Fin 6 → ℚ
  xOffset : Fin 5 → ℚ
  yOffset : Fin 5 → ℚ
  distIncr : ℚ
  xHitLine : ℕ
  yHitLine : ℕ
  step : ℕ
  lastStep : ℕ

/-- The hit-line scan of `initExpl`:
`let i = 0; let look = left; while (hit > look + q && i <= 4) { look += q; i++; }`
returning the final `(i, look)`.  The loop guard `i <= 4` bounds the
iteration count, so fuel 6 is enough to run it to completion. -/
def hitScanAux (hit q : ℚ) : ℕ → ℕ → ℚ → ℕ × ℚ
  | 0, i, look => (i, look)
  | fuel + 1, i, look =>
      if hit > look + q ∧ i ≤ 4 then hitScanAux hit q fuel (i + 1) (look + q)
      else (i, look)

def hitScan (hit left q : ℚ) : ℕ × ℚ := hitScanAux hit q 6 0 left

/-- Hit lane and initial grid offset on one axis, as computed by `initExpl`
from the hit coordinate and the extent on that axis (`extent.left = -ext`,
`extent.right = ext`, `quarter = (right - left) / 4`). -/
def hitLineOffset (hit ext q : ℚ) : ℕ × ℚ :=
  if hit ≥ ext then (4, q)
  else if hit ≤ -ext then (0, q)
  else
    let s := hitScan hit (-ext) q
    (s.1 + 1, hit - s.2)

/-- Grid lines of `initExpl`/`initForm`: `line[0] = left`,
`line[1] = left + off`, `line[i] = line[i-1] + q` for `i = 2..5`. -/
def gridLines (left off q : ℚ) : Fin 6 → ℚ
  | 0 => left
  | 1 => left + off
  | 2 => left + off + q
  | 3 => left + off + q + q
  | 4 => left + off + q + q + q
  | 5 => left + off + q + q + q + q

/-- Model of `Vis.initExpl(xHit, yHit, distIncr, lastStep)`: grid subdivision of the
extent box with the hit cell located by the lane scan; all lane offsets
start at zero. -/
def initExpl (extentX extentY xHit yHit distIncr : ℚ) (lastStep : ℕ) : Expl :=
  let xQuarter := (extentX - (-extentX)) / 4
  let yQuarter := (extentY - (-extentY)) / 4
  let hx := hitLineOffset xHit extentX xQuarter
  let hy := hitLineOffset yHit extentY yQuarter
  { xLine := gridLines (-extentX) hx.2 xQuarter
    yLine := gridLines (-extentY) hy.2 yQuarter
    xOffset := fun _ => 0
    yOffset := fun _ => 0
    distIncr := distIncr
    xHitLine := hx.1
    yHitLine := hy.1
    step := 0
    lastStep := lastStep }

/-- Model of `Vis.initForm(distIncr, lastStep)`: hit lanes fixed at 3, grid line 1
coincides with line 0, offsets pre-seeded from
`baseOffset = lastStep * distIncr` (`[3] = base`, `[2] = -base`,
`[4] = 2*base`, `[1] = -2*base`, `[0] = offset[1]`), and the increment
stored NEGATED so that `incrExpl` converges. -/
def initForm (extentX extentY distIncr : ℚ) (lastStep : ℕ) : Expl :=
  let xQuarter := (extentX - (-extentX)) / 4
  let yQuarter := (extentY - (-extentY)) / 4
  let baseOffset := (lastStep : ℚ) * distIncr
  let offs : Fin 5 → ℚ
    | 0 => -(2 * baseOffset)
    | 1 => -(2 * baseOffset)
    | 2 => -baseOffset
    | 3 => baseOffset
    | 4 => 2 * baseOffset
  { xLine := gridLines (-extentX) 0 xQuarter
    yLine := gridLines (-extentY) 0 yQuarter
    xOffset := offs
    yOffset := offs
    distIncr := -distIncr
    xHitLine := 3
    yHitLine := 3
    step := 0
    lastStep := lastStep }

/-- Outward loop of `incrExpl`:
`for (i = hitLine; i <= 4; i++) { offset[i] += incr; incr += incr; }`.
Structured with explicit fuel `5 - i`, which matches the iteration count of
the source loop exactly. -/
def explOutAux (incr : ℚ) : ℕ → ℕ → (Fin 5 → ℚ) → Fin 5 → ℚ
  | 0, _, off => off
  | fuel + 1, i, off =>
      if h : i < 5 then
        explOutAux (incr + incr) fuel (i + 1)
          (Function.update off ⟨i, h⟩ (off ⟨i, h⟩ + incr))
      else off

def explOut (incr : ℚ) (hitLine : ℕ) (off : Fin 5 → ℚ) : Fin 5 → ℚ :=
  explOutAux incr (5 - hitLine) hitLine off

/-- Inward loop of `incrExpl`:
`for (i = hitLine - 1; i >= 0; i--) { offset[i] -= incr; incr += incr; }`.
The argument counts the remaining iterations (`hitLine` of them), so the
next index written is the predecessor of the counter. -/
def explInAux (incr : ℚ) : ℕ → (Fin 5 → ℚ) → Fin 5 → ℚ
  | 0, off => off
  | n + 1, off =>
      if h : n < 5 then
        explInAux (incr + incr) n
          (Function.update off ⟨n, h⟩ (off ⟨n, h⟩ - incr))
      else explInAux (incr + incr) n off

def explIn (incr : ℚ) (hitLine : ℕ) (off : Fin 5 → ℚ) : Fin 5 → ℚ :=
  explInAux incr hitLine off

/-- Model of `Vis.incrExpl()` acting on a (non-null) `expl` record: both axis loops,
the step increment, and the finished flag `step >= lastStep` (evaluated on
the incremented step, as in the source where `e.step++` precedes the
comparison). -/
def incrExpl (e : Expl) : Expl × Bool :=
  let xOff := explIn e.distIncr e.xHitLine (explOut e.distIncr e.xHitLine e.xOffset)
  let yOff := explIn e.distIncr e.yHitLine (explOut e.distIncr e.yHitLine e.yOffset)
  let e' : Expl := { e with xOffset := xOff, yOffset := yOff, step := e.step + 1 }
  (e', decide (e.lastStep ≤ e.step + 1))

/-- One animation step (the state part of `incrExpl`). -/
def incrStep (e : Expl) : Expl := (incrExpl e).1

/-! ### Entity state (`vis.js` class `Vis`) and the collision engine -/

/-- One collision rectangle in entity-local coordinates
(an element of the list returned by `getCollisionRects`). -/
structure CRect where
  left : ℚ
  top : ℚ
  right : ℚ
  bottom : ℚ

/-- The `Vis` base-object state.  `rects` holds the (subtype-dispatched)
result of `getCollisionRects()`; the base class returns the single
rectangle spanning the full extents, subtypes return their scaled shape
rectangles. -/
structure Vis where
  x : ℚ
  y : ℚ
  z : ℚ
  vx : ℚ
  vy : ℚ
  vz : ℚ
  extentX : ℚ
  extentY : ℚ
  thick : ℚ
  checkCollide : Bool
  isExploding : Bool
  isForming : Bool
  pleaseRemove : Bool
  shade : ℚ
  expl : Option Expl
  formAccum : ℚ
  explAccum : ℚ
  rects : List CRect

/-- The default `getCollisionRects()` list of the base class: one rectangle
spanning the full extents. -/
def defaultRects (extentX extentY : ℚ) : List CRect :=
  [⟨-extentX, -extentY, extentX, extentY⟩]

/-- World-coordinate overlap test of one rectangle pair inside
`deepCollide`:
`!(r1Left > r2Right) && !(r1Right < r2Left) && !(r1Bottom < r2Top) && !(r1Top > r2Bottom)`
with each rectangle translated by its owner's position. -/
def rectPairHit (ax ay bx by_ : ℚ) (r1 r2 : CRect) : Bool :=
  let r1Left := r1.left + ax
  let r1Right := r1.right + ax
  let r1Top := r1.top + ay
  let r1Bottom := r1.bottom + ay
  let r2Left := r2.left + bx
  let r2Right := r2.right + bx
  let r2Top := r2.top + by_
  let r2Bottom := r2.bottom + by_
  !decide (r1Left > r2Right) && !decide (r1Right < r2Left) &&
    !decide (r1Bottom < r2Top) && !decide (r1Top > r2Bottom)

/-- Model of `Vis.deepCollide(other)`: any rectangle of `a` (translated to world
coordinates) overlaps any rectangle of `b`. -/
def deepCollide (a b : Vis) : Bool :=
  a.rects.any fun r1 => b.rects.any fun r2 => rectPairHit a.x a.y b.x b.y r1 r2

/-- Model of `Vis.collidesWith(other)`: collidability/exploding/forming guards, then
the velocity-extended AABB broad phase (x, y, and wrapped z), then
`deepCollide`.  The source applies the two z corrections as two separate
`if`s; they coincide with `wrapDist` because after the first correction
fires the second condition is unsatisfiable. -/
def collidesWith (a b : Vis) : Bool :=
  if !a.checkCollide || !b.checkCollide then false
  else if a.isExploding || b.isExploding then false
  else if a.isForming || b.isForming then false
  else
    let thisExtentX := a.extentX + |a.vx|
    let thisExtentY := a.extentY + |a.vy|
    let thisThick := a.thick + |a.vz|
    let otherExtentX := b.extentX + |b.vx|
    let otherExtentY := b.extentY + |b.vy|
    let otherThick := b.thick + |b.vz|
    if a.x + thisExtentX < b.x - otherExtentX then false
    else if a.x - thisExtentX > b.x + otherExtentX then false
    else if a.y + thisExtentY < b.y - otherExtentY then false
    else if a.y - thisExtentY > b.y + otherExtentY then false
    else
      let zDiff := wrapDist (b.z - a.z)
      if |zDiff| > thisThick + otherThick then false
      else deepCollide a b

/-! ### Per-frame updates (`vis.js` `update`, `checkBounds`, `wrapZ`,
`explode`; subtype `update` methods) -/

/-- The frame scale `dtScale = dt / 16.67`. -/
def dtScaleOf (dt : ℚ) : ℚ := dt / (1667 / 100)

/-- Model of `Vis.checkBounds()`: reflective bounce against the tunnel walls
(`CONFIG.TUNNEL`: left/right = ∓32000, top/bottom = ∓32000). -/
def checkBoundsFn (v : Vis) : Vis :=
  let v :=
    if v.x + v.extentX > 32000 then { v with x := 32000 - v.extentX, vx := -v.vx }
    else if v.x - v.extentX < -32000 then { v with x := -32000 + v.extentX, vx := -v.vx }
    else v
  if v.y + v.extentY > 32000 then { v with y := 32000 - v.extentY, vy := -v.vy }
  else if v.y - v.extentY < -32000 then { v with y := -32000 + v.extentY, vy := -v.vy }
  else v

/-- Model of `Vis.wrapZ()`. -/
def wrapZFn (v : Vis) : Vis := { v with z := jsWrap v.z }

/-- The `while (formAccum >= 1)` loop of `Vis.update` in the forming state:
each pass decrements the accumulator and runs `incrExpl`; on completion it
clears `isForming` and discards the record, then breaks.  A null record
makes `incrExpl` report finished immediately.  Each pass lowers the
accumulator by one, so `⌊accum⌋` fuel runs the loop to its exit.
Returns (accumulator, record, still forming). -/
def formLoop : ℕ → ℚ → Option Expl → ℚ × Option Expl × Bool
  | 0, a, e => (a, e, true)
  | fuel + 1, a, e =>
      if 1 ≤ a then
        let a' := a - 1
        match e with
        | none => (a', none, false)
        | some ex =>
            let p := incrExpl ex
            if p.2 then (a', none, false)
            else formLoop fuel a' (some p.1)
      else (a, e, true)

/-- The `while (explAccum >= 1)` loop of `Vis.update` in the exploding
state: on completion it sets `pleaseRemove` and breaks, keeping the
(just incremented) record.  Returns (accumulator, record, finished). -/
def explLoop : ℕ → ℚ → Option Expl → ℚ × Option Expl × Bool
  | 0, a, e => (a, e, false)
  | fuel + 1, a, e =>
      if 1 ≤ a then
        let a' := a - 1
        match e with
        | none => (a', none, true)
        | some ex =>
            let p := incrExpl ex
            if p.2 then (a', some p.1, true)
            else explLoop fuel a' (some p.1)
      else (a, e, false)

/-- Model of `Vis.update(dt)`: forming animation, then exploding animation (which
suppresses motion), then x/y velocity integration with the wall bounce.
The animation speed multiplier is `1.8 * 0.5` per the source. -/
def visUpdate (dt : ℚ) (v : Vis) : Vis :=
  let dtScale := dtScaleOf dt
  let v :=
    if v.isForming then
      let a0 := v.formAccum + dtScale * (9 / 5) * (1 / 2)
      let r := formLoop a0.floor.toNat a0 v.expl
      { v with formAccum := r.1, expl := r.2.1, isForming := r.2.2 }
    else v
  if v.isExploding then
    let a0 := v.explAccum + dtScale * (9 / 5) * (1 / 2)
    let r := explLoop a0.floor.toNat a0 v.expl
    { v with explAccum := r.1, expl := r.2.1,
             pleaseRemove := v.pleaseRemove || r.2.2 }
  else
    if v.vx ≠ 0 ∨ v.vy ≠ 0 then
      checkBoundsFn { v with x := v.x + v.vx * dtScale, y := v.y + v.vy * dtScale }
    else v

/-- Model of `Vis.explode(xHit, yHit)`: a no-op while already exploding; otherwise
disables collidability, resets the frame accumulator, and initialises the
record from the impact point translated to entity-local coordinates, with
`stdExplIncr = 125` and `stdExplSteps = 25`. -/
def explode (xHit yHit : ℚ) (v : Vis) : Vis :=
  if v.isExploding then v
  else
    { v with isExploding := true
             checkCollide := false
             explAccum := 0
             expl := some (initExpl v.extentX v.extentY (xHit - v.x) (yHit - v.y) 125 25) }

/-! ### Subtype `update` methods

Each subtype's `update(dt)` is translated from its source file.  Parts of
an update that involve `Math.random`, `Math.sqrt`, trigonometry or
`Math.pow` with a non-integer exponent (the aphid flocking, the saucer's
random draws, the player's frame-rate-scaled deceleration) cannot be
carried in ℚ; those computed values enter as explicit oracle parameters,
universally quantified in every theorem, while the surrounding control
flow and all depth-axis arithmetic are translated exactly. -/

/-- Model of `Cross.update(dt)` (cross.js): base update, early return while
exploding/forming, velocity integration on all three axes, wall bounce,
`wrapZ`. -/
def crossUpdate (dt : ℚ) (v : Vis) : Vis :=
  let v := visUpdate dt v
  if v.isExploding || v.isForming then v
  else
    let dtScale := dtScaleOf dt
    wrapZFn (checkBoundsFn
      { v with x := v.x + v.vx * dtScale, y := v.y + v.vy * dtScale,
               z := v.z + v.vz * dtScale })

/-- Model of `TestSquare.update(dt)` (testsquare.js): base update, then velocity
integration, wall bounce and `wrapZ` (no exploding/forming early return). -/
def testSquareUpdate (dt : ℚ) (v : Vis) : Vis :=
  let v := visUpdate dt v
  let dtScale := dtScaleOf dt
  wrapZFn (checkBoundsFn
    { v with x := v.x + v.vx * dtScale, y := v.y + v.vy * dtScale,
             z := v.z + v.vz * dtScale })

/-- Model of `Blocker.update(dt)` (blocker.js): base update only — blockers don't
move and their `update` performs no z wrap. -/
def blockerUpdate (dt : ℚ) (v : Vis) : Vis := visUpdate dt v

/-- Thing-specific state: the bobbing phase. -/
structure ThingState where
  core : Vis
  bobPhase : ℚ
  bobSpeed : ℚ

/-- Model of `Thing.update(dt)` (thing.js): base update, advance the bobbing phase,
then `wrapZ` (things are stationary). -/
def thingUpdate (dt : ℚ) (t : ThingState) : ThingState :=
  { t with core := wrapZFn (visUpdate dt t.core),
           bobPhase := t.bobPhase + t.bobSpeed * dt }

/-- PShot-specific state: cumulative distance travelled. -/
structure PShotState where
  core : Vis
  distanceTraveled : ℚ

/-- Model of `PShot.update(dt)` (pshot.js): move forward on z, `wrapZ`, accumulate
`|vz * dtScale|` and request removal past `TUNNEL.far = 65000`. -/
def pshotUpdate (dt : ℚ) (s : PShotState) : PShotState :=
  let dtScale := dtScaleOf dt
  let c := wrapZFn { s.core with z := s.core.z + s.core.vz * dtScale }
  let d := s.distanceTraveled + |s.core.vz * dtScale|
  { core := { c with pleaseRemove := c.pleaseRemove || decide (d > 65000) },
    distanceTraveled := d }

/-- SShot-specific state: lifetime bookkeeping. -/
structure SShotState where
  core : Vis
  lifeTime : ℚ
  maxLifeTime : ℚ

/-- Model of `SShot.update(dt)` (sshot.js): velocity integration on all three axes,
lifetime cap, and removal when x/y leave the tunnel rectangle.  Note: this
update never wraps `z`. -/
def sshotUpdate (dt : ℚ) (s : SShotState) : SShotState :=
  let dtScale := dtScaleOf dt
  let c := { s.core with x := s.core.x + s.core.vx * dtScale,
                         y := s.core.y + s.core.vy * dtScale,
                         z := s.core.z + s.core.vz * dtScale }
  let life := s.lifeTime + dt
  let c := if life > s.maxLifeTime then { c with pleaseRemove := true } else c
  let c :=
    if c.x < (-32000 : ℚ) ∨ c.x > (32000 : ℚ) ∨ c.y < (-32000 : ℚ) ∨ c.y > (32000 : ℚ) then
      { c with pleaseRemove := true }
    else c
  { core := c, lifeTime := life, maxLifeTime := s.maxLifeTime }

/-- Saucer-specific state: burst-fire timers. -/
structure SaucerState where
  core : Vis
  fShotTimer : ℚ
  fShotCount : ℚ

/-- Saucer timer decay: `if (fShotTimer > 0) fShotTimer -= dtScale`. -/
def saucerTimer (prev dtScale : ℚ) : ℚ :=
  if prev > 0 then prev - dtScale else prev

/-- Saucer shooting logic (saucer.js): fires a burst shot when the timer
has run out, the player is within 8000 wrapped depth units, the random
draw succeeds and the player is within 5000 on both free axes; a burst of
5 shots resets to the long wait of 100.  Spawning the `SShot` itself is a
tunnel side effect outside this entity's state.  Returns the new
(timer, count). -/
def saucerShoot (zFromPlayer xDist yDist : ℚ) (rShoot : Bool)
    (timer count : ℚ) : ℚ × ℚ :=
  if timer ≤ 0 then
    if |zFromPlayer| < 8000 ∧ rShoot = true then
      if |xDist| < 5000 ∧ |yDist| < 5000 then
        let count := count + 1
        if count ≥ 5 then ((100 : ℚ), (0 : ℚ)) else ((10 : ℚ), count)
      else (timer, count)
    else (timer, count)
  else (timer, count)

/-- Saucer drift toward the player: `±dtScale` on each axis velocity. -/
def saucerDrift (px py dtScale : ℚ) (c : Vis) : Vis :=
  let c := if px < c.x then { c with vx := c.vx - dtScale } else c
  let c := if px > c.x then { c with vx := c.vx + dtScale } else c
  let c := if py < c.y then { c with vy := c.vy - dtScale } else c
  if py > c.y then { c with vy := c.vy + dtScale } else c

/-- Model of `Saucer.update(dt)` (saucer.js): base update, early return while
exploding/forming, velocity integration, wall bounce, the shooting/drift
AI, then `wrapZ`.  `hasPlayer` models `this.tunnel && this.tunnel.player`;
`px/py/pz` are the player's position; `rShoot` is `Math.random() > 0.95`
and `rDrift` is `Math.random() > 0.5`. -/
def saucerUpdate (hasPlayer : Bool) (px py pz : ℚ) (rShoot rDrift : Bool)
    (dt : ℚ) (s : SaucerState) : SaucerState :=
  let c := visUpdate dt s.core
  if c.isExploding || c.isForming then { s with core := c }
  else
    let dtScale := dtScaleOf dt
    let c := checkBoundsFn
      { c with x := c.x + c.vx * dtScale, y := c.y + c.vy * dtScale,
               z := c.z + c.vz * dtScale }
    if hasPlayer then
      let tc := saucerShoot (getZFromPlayer c.z pz) (px - c.x) (py - c.y)
        rShoot (saucerTimer s.fShotTimer dtScale) s.fShotCount
      let c := if rDrift then saucerDrift px py dtScale c else c
      { core := wrapZFn c, fShotTimer := tc.1, fShotCount := tc.2 }
    else { core := wrapZFn c, fShotTimer := s.fShotTimer, fShotCount := s.fShotCount }

/-- Model of `Aphid.update(dt)` (aphid.js): base update, early return while
exploding/forming, the flocking pass (which rewrites the velocity — here
the oracle triple `flockVx/flockVy/flockVz`, since `processFlocking` uses
`Math.sqrt`, trigonometry and the neighbour search; when no tunnel is set
the oracles equal the current velocity), velocity integration, wall
bounce, `wrapZ`. -/
def aphidUpdate (flockVx flockVy flockVz : ℚ) (dt : ℚ) (a : Vis) : Vis :=
  let c := visUpdate dt a
  if c.isExploding || c.isForming then c
  else
    let dtScale := dtScaleOf dt
    let c := { c with vx := flockVx, vy := flockVy, vz := flockVz }
    wrapZFn (checkBoundsFn
      { c with x := c.x + c.vx * dtScale, y := c.y + c.vy * dtScale,
               z := c.z + c.vz * dtScale })

/-- Model of `Player.update(dt)` (player.js), z-axis physics: the acceleration /
deceleration branches (`slowFactor = 0.95`, `accelStep = 3`,
`maxSpeed = 500`, each velocity scaled by `SPEED_FACTOR = 0.5`), the speed
clamp, the z integration and the explicit `((z % len) + len) % len` wrap.
`powSlow` is the oracle for `Math.pow(0.95, dtScale)` in the coast branch.
The shot sub-updates iterate over separate `PShot` objects and do not
touch the player's own state. -/
def playerUpdate (moveForward moveBackward : Bool) (powSlow : ℚ)
    (dt : ℚ) (p : Vis) : Vis :=
  let dtScale := dtScaleOf dt
  let accel := 3 * (1 / 2 : ℚ)
  let maxSpeed := 500 * (1 / 2 : ℚ)
  let vz :=
    if moveBackward then
      (if p.vz > 0 then p.vz * (19 / 20) else p.vz) - accel * dtScale
    else if moveForward then
      (if p.vz < 0 then p.vz * (19 / 20) else p.vz) + accel * dtScale
    else p.vz * powSlow
  let vz := max (-maxSpeed) (min maxSpeed vz)
  { p with vz := vz, z := jsWrap (p.z + vz * dtScale) }

/-! ### Stereo projection (`projection.js`) -/

/-- Result of `projectPoint`: canvas coordinates plus the visibility flag. -/
structure ProjResult where
  x : ℚ
  y : ℚ
  visible : Bool

/-- Model of `projectPoint(worldX, worldY, worldZ, eyeOffsetX)`.
`screenPlaneZ` is the configured convergence depth (`CONFIG.STEREO`,
5000 in the shipped config); the JavaScript truthiness test
`if (screenPlaneZ && eyeOffsetX !== 0)` becomes the two non-zero tests.
Near/far planes are `TUNNEL.near = 30` / `TUNNEL.far = 65000`,
`eyeToScreen = 50`, canvas centre `(WIDTH/2, HEIGHT/2) = (320, 240)`. -/
def projectPoint (screenPlaneZ eyeX eyeY eyeZ worldX worldY worldZ eyeOffsetX : ℚ) :
    ProjResult :=
  let relZ := worldZ - eyeZ
  if relZ ≤ 30 then ⟨0, 0, false⟩
  else if relZ > 65000 then ⟨0, 0, false⟩
  else
    let screenX := (worldX - eyeX - eyeOffsetX) * 50 / relZ
    let screenY := (worldY - eyeY) * 50 / relZ
    let screenX :=
      if screenPlaneZ ≠ 0 ∧ eyeOffsetX ≠ 0 then
        screenX + eyeOffsetX * 50 / screenPlaneZ
      else screenX
    ⟨screenX + 640 / 2, screenY + 480 / 2, true⟩

/-! ### Tunnel manager draw pass (`tunnel.js` `drawObjects`) -/

/-- The object portion of `Tunnel.drawObjects`: sort the entity list with
the comparator `b.getZFromPlayer(playerZ) - a.getZFromPlayer(playerZ)`
(descending relative depth; JavaScript `Array.prototype.sort` is stable,
modelled by a stable merge sort), then draw exactly those whose relative
depth satisfies `relZ > near && relZ < far`.  The returned list is the
draw order. -/
def drawObjects (playerZ : ℚ) (objs : List Vis) : List Vis :=
  let sorted := objs.mergeSort fun a b =>
    decide (getZFromPlayer b.z playerZ ≤ getZFromPlayer a.z playerZ)
  sorted.filter fun o =>
    decide (getZFromPlayer o.z playerZ > 30) && decide (getZFromPlayer o.z playerZ < 65000)

/-- A freshly constructed base `Vis` at a given position: the constructor
defaults of `vis.js` (zero velocity, extents 100/100, thickness 30,
collidable, not exploding/forming, shade 0.8, no animation record) with
the base-class collision rectangle list. -/
def mkVis (x y z : ℚ) : Vis :=
  { x := x, y := y, z := z
    vx := 0, vy := 0, vz := 0
    extentX := 100, extentY := 100, thick := 30
    checkCollide := true, isExploding := false, isForming := false
    pleaseRemove := false
    shade := 4 / 5
    expl := none
    formAccum := 0, explAccum := 0
    rects := defaultRects 100 100 }

/-- Depth-axis invariant: z lies in `[0, L)` with `L = 65000`. -/
def inTunnelZ (z : ℚ) : Prop := 0 ≤ z ∧ z < 65000

/-- A saucer shot just before the wrap seam, moving forward: the concrete
state of the C2 counterexample. -/
def sshotCex : SShotState :=
  { core := { mkVis 0 0 64000 with vz := 2000 }, lifeTime := 0, maxLifeTime := 5000 }

/-- Every collision rectangle of the list lies inside the extent box —
true of the base class default and of every subtype's shape list. -/
def RectsWithin (v : Vis) : Prop :=
  ∀ r ∈ v.rects,
    -v.extentX ≤ r.left ∧ r.right ≤ v.extentX ∧
      -v.extentY ≤ r.top ∧ r.bottom ≤ v.extentY

/-! ## Helper lemmas -/

theorem jsMod_mem_of_nonneg {a : ℚ} (b : ℚ) (ha : 0 ≤ a) (hb : 0 < b) :
    0 ≤ jsMod a b ∧ jsMod a b < b := by
  have hq : 0 ≤ a / b := div_nonneg ha (le_of_lt hb)
  have h1 : jsMod a b = b * Int.fract (a / b) := by
    rw [jsMod, if_pos hq, Int.fract]
    field_simp
  constructor
  · rw [h1]
    exact mul_nonneg (le_of_lt hb) (Int.fract_nonneg _)
  · rw [h1]
    calc b * Int.fract (a / b) < b * 1 :=
          (mul_lt_mul_left hb).2 (Int.fract_lt_one _)
    _ = b := mul_one b

theorem jsMod_mem_of_neg {a : ℚ} (b : ℚ) (ha : a < 0) (hb : 0 < b) :
    -b < jsMod a b ∧ jsMod a b ≤ 0 := by
  have hq : ¬ (0 ≤ a / b) := by
    simp only [not_le]
    exact div_neg_of_neg_of_pos ha hb
  have h1 : jsMod a b = -(b * (((⌈a / b⌉ : ℤ) : ℚ) - a / b)) := by
    rw [jsMod, if_neg hq]
    field_simp
    ring
  have h2 : (0 : ℚ) ≤ ((⌈a / b⌉ : ℤ) : ℚ) - a / b := by
    have := Int.le_ceil (a / b)
    linarith
  have h3 : ((⌈a / b⌉ : ℤ) : ℚ) - a / b < 1 := by
    have := Int.ceil_lt_add_one (a / b)
    linarith
  constructor
  · rw [h1]
    have : b * (((⌈a / b⌉ : ℤ) : ℚ) - a / b) < b * 1 := by
      exact (mul_lt_mul_left hb).2 h3
    linarith
  · rw [h1]
    have : 0 ≤ b * (((⌈a / b⌉ : ℤ) : ℚ) - a / b) :=
      mul_nonneg (le_of_lt hb) h2
    linarith

/-- The wrap `wrapZ` always lands in `[0, 65000)`, for any input depth. -/
theorem jsWrap_mem (z : ℚ) : 0 ≤ jsWrap z ∧ jsWrap z < 65000 := by
  have hb : (0 : ℚ) < 65000 := by norm_num
  have hinner : -(65000 : ℚ) < jsMod z 65000 := by
    rcases le_or_lt 0 z with hz | hz
    · have := jsMod_mem_of_nonneg 65000 hz hb
      linarith [this.1]
    · exact (jsMod_mem_of_neg 65000 hz hb).1
  have harg : 0 ≤ jsMod z 65000 + 65000 := by linarith
  exact jsMod_mem_of_nonneg 65000 harg hb

/-- The single-correction wrap is odd: `wrapDist (-d) = -(wrapDist d)`. -/
theorem wrapDist_neg (d : ℚ) : wrapDist (-d) = -(wrapDist d) := by
  unfold wrapDist
  split_ifs <;> linarith

theorem jsWrap_inTunnelZ (z : ℚ) : inTunnelZ (jsWrap z) := jsWrap_mem z

/-- The wall bounce never touches z. -/
theorem checkBoundsFn_z (v : Vis) : (checkBoundsFn v).z = v.z := by
  unfold checkBoundsFn
  dsimp only
  split_ifs <;> rfl

/-- The base `Vis.update` never touches z: the forming/exploding branches
only drive the animation record, and the motion branch integrates x and y
only. -/
theorem visUpdate_z (dt : ℚ) (v : Vis) : (visUpdate dt v).z = v.z := by
  unfold visUpdate
  dsimp only
  split <;> split <;> first
    | rfl
    | (split <;> simp [checkBoundsFn_z])

/-- One `incrExpl` pass over a lane vector with hit lane 3: lanes 3 and 4
gain `+incr` and `+2·incr` (outward walk), lanes 2, 1, 0 lose `incr`,
`2·incr` and `4·incr` (inward walk with doubling). -/
theorem explStep_lane3 (c : ℚ) (off : Fin 5 → ℚ) :
    (explIn c 3 (explOut c 3 off)) 0 = off 0 - 4 * c ∧
      (explIn c 3 (explOut c 3 off)) 1 = off 1 - 2 * c ∧
      (explIn c 3 (explOut c 3 off)) 2 = off 2 - c ∧
      (explIn c 3 (explOut c 3 off)) 3 = off 3 + c ∧
      (explIn c 3 (explOut c 3 off)) 4 = off 4 + 2 * c := by
  refine ⟨?_, ?_, ?_, ?_, ?_⟩ <;>
    · simp only [explIn, explOut]
      norm_num
      simp only [explInAux, explOutAux]
      simp +decide [Function.update_apply]
      try rfl
      try ring

/-- Closed form of the lane offsets after `k` animation steps from the
formation preset: with `B = lastStep · distIncr` the preset seeds
`(-2B, -2B, -B, B, 2B)` on both axes and the stored increment is
`-distIncr`, so each step moves the lanes by `(+4D, +2D, +D, -D, -2D)`.
Hit lanes, increment and step total are preserved throughout. -/
theorem formIter_offsets (extX extY D : ℚ) (n : ℕ) (k : ℕ) :
    (incrStep^[k] (initForm extX extY D n)).xHitLine = 3 ∧
      (incrStep^[k] (initForm extX extY D n)).yHitLine = 3 ∧
      (incrStep^[k] (initForm extX extY D n)).distIncr = -D ∧
      ((incrStep^[k] (initForm extX extY D n)).xOffset 0 =
          -(2 * ((n : ℚ) * D)) + 4 * k * D ∧
        (incrStep^[k] (initForm extX extY D n)).xOffset 1 =
          -(2 * ((n : ℚ) * D)) + 2 * k * D ∧
        (incrStep^[k] (initForm extX extY D n)).xOffset 2 =
          -((n : ℚ) * D) + k * D ∧
        (incrStep^[k] (initForm extX extY D n)).xOffset 3 =
          (n : ℚ) * D - k * D ∧
        (incrStep^[k] (initForm extX extY D n)).xOffset 4 =
          2 * ((n : ℚ) * D) - 2 * k * D) ∧
      ((incrStep^[k] (initForm extX extY D n)).yOffset 0 =
          -(2 * ((n : ℚ) * D)) + 4 * k * D ∧
        (incrStep^[k] (initForm extX extY D n)).yOffset 1 =
          -(2 * ((n : ℚ) * D)) + 2 * k * D ∧
        (incrStep^[k] (initForm extX extY D n)).yOffset 2 =
          -((n : ℚ) * D) + k * D ∧
        (incrStep^[k] (initForm extX extY D n)).yOffset 3 =
          (n : ℚ) * D - k * D ∧
        (incrStep^[k] (initForm extX extY D n)).yOffset 4 =
          2 * ((n : ℚ) * D) - 2 * k * D) := by
  induction k with
  | zero =>
      refine ⟨rfl, rfl, rfl, ⟨?_, ?_, ?_, ?_, ?_⟩, ⟨?_, ?_, ?_, ?_, ?_⟩⟩ <;>
        · simp only [Function.iterate_zero_apply]
          norm_num
          rfl
  | succ k ih =>
      obtain ⟨hxl, hyl, hdist, ⟨hx0, hx1, hx2, hx3, hx4⟩,
        ⟨hy0, hy1, hy2, hy3, hy4⟩⟩ := ih
      rw [Function.iterate_succ_apply']
      simp only [incrStep, incrExpl]
      rw [hxl, hyl, hdist]
      have hsx := explStep_lane3 (-D)
        ((incrStep^[k] (initForm extX extY D n)).xOffset)
      have hsy := explStep_lane3 (-D)
        ((incrStep^[k] (initForm extX extY D n)).yOffset)
      refine ⟨rfl, rfl, rfl, ⟨?_, ?_, ?_, ?_, ?_⟩, ⟨?_, ?_, ?_, ?_, ?_⟩⟩
      · rw [hsx.1, hx0]; push_cast; ring
      · rw [hsx.2.1, hx1]; push_cast; ring
      · rw [hsx.2.2.1, hx2]; push_cast; ring
      · rw [hsx.2.2.2.1, hx3]; push_cast; ring
      · rw [hsx.2.2.2.2, hx4]; push_cast; ring
      · rw [hsy.1, hy0]; push_cast; ring
      · rw [hsy.2.1, hy1]; push_cast; ring
      · rw [hsy.2.2.1, hy2]; push_cast; ring
      · rw [hsy.2.2.2.1, hy3]; push_cast; ring
      · rw [hsy.2.2.2.2, hy4]; push_cast; ring

theorem crossUpdate_z (dt : ℚ) (v : Vis) (h : inTunnelZ v.z) :
    inTunnelZ (crossUpdate dt v).z := by
  unfold crossUpdate
  dsimp only
  split
  · rw [visUpdate_z]; exact h
  · exact jsWrap_inTunnelZ _

theorem testSquareUpdate_z (dt : ℚ) (v : Vis) :
    inTunnelZ (testSquareUpdate dt v).z :=
  jsWrap_inTunnelZ _

theorem blockerUpdate_z (dt : ℚ) (v : Vis) (h : inTunnelZ v.z) :
    inTunnelZ (blockerUpdate dt v).z := by
  unfold blockerUpdate
  rw [visUpdate_z]
  exact h

theorem thingUpdate_z (dt : ℚ) (t : ThingState) :
    inTunnelZ (thingUpdate dt t).core.z :=
  jsWrap_inTunnelZ _

theorem pshotUpdate_z (dt : ℚ) (s : PShotState) :
    inTunnelZ (pshotUpdate dt s).core.z := by
  unfold pshotUpdate
  dsimp only
  exact jsWrap_inTunnelZ _

theorem saucerUpdate_z (hasPlayer : Bool) (px py pz : ℚ) (rShoot rDrift : Bool)
    (dt : ℚ) (s : SaucerState) (h : inTunnelZ s.core.z) :
    inTunnelZ (saucerUpdate hasPlayer px py pz rShoot rDrift dt s).core.z := by
  unfold saucerUpdate
  dsimp only
  split
  · rw [visUpdate_z]; exact h
  · split
    · exact jsWrap_inTunnelZ _
    · exact jsWrap_inTunnelZ _

theorem aphidUpdate_z (flockVx flockVy flockVz dt : ℚ) (a : Vis)
    (h : inTunnelZ a.z) : inTunnelZ (aphidUpdate flockVx flockVy flockVz dt a).z := by
  unfold aphidUpdate
  dsimp only
  split
  · rw [visUpdate_z]; exact h
  · exact jsWrap_inTunnelZ _

theorem playerUpdate_z (moveForward moveBackward : Bool) (powSlow dt : ℚ)
    (p : Vis) : inTunnelZ (playerUpdate moveForward moveBackward powSlow dt p).z :=
  jsWrap_inTunnelZ _

/-- The rectangle-pair overlap test is symmetric in the two rectangles
(and their owners' positions). -/
theorem rectPairHit_symm (ax ay bx by_ : ℚ) (r1 r2 : CRect) :
    rectPairHit ax ay bx by_ r1 r2 = rectPairHit bx by_ ax ay r2 r1 := by
  unfold rectPairHit
  simp only [gt_iff_lt, Bool.and_comm, Bool.and_left_comm, Bool.and_assoc]

/-- The test `deepCollide` is symmetric. -/
theorem deepCollide_symm (a b : Vis) : deepCollide a b = deepCollide b a := by
  rw [Bool.eq_iff_iff]
  unfold deepCollide
  simp only [List.any_eq_true]
  constructor
  · rintro ⟨r1, h1, r2, h2, h⟩
    exact ⟨r2, h2, r1, h1, by rw [← rectPairHit_symm]; exact h⟩
  · rintro ⟨r2, h2, r1, h1, h⟩
    exact ⟨r1, h1, r2, h2, by rw [rectPairHit_symm]; exact h⟩

/-! ## Claims -/

/-- C4: for entities with z positions in [0, 65000), the periodic depth
distance of `getZFromPlayer` is antisymmetric —
`a.getZFromPlayer(b.z) = -(b.getZFromPlayer(a.z))` — and bounded in
magnitude by half the tunnel length, 32500. -/
theorem C4_getZFromPlayer_antisymm_bounded (az bz : ℚ)
    (ha1 : 0 ≤ az) (ha2 : az < 65000) (hb1 : 0 ≤ bz) (hb2 : bz < 65000) :
    getZFromPlayer az bz = -(getZFromPlayer bz az) ∧
      |getZFromPlayer az bz| ≤ 65000 / 2 := by
  constructor
  · unfold getZFromPlayer
    rw [show bz - az = -(az - bz) by ring, wrapDist_neg, neg_neg]
  · unfold getZFromPlayer wrapDist
    split_ifs <;> rw [abs_le] <;> constructor <;> linarith

/-- Witness instantiating C4 at the spec scenario `A.z = 100`,
`B.z = 64950`. -/
theorem C4_witness :
    getZFromPlayer 100 64950 = -(getZFromPlayer 64950 100) ∧
      |getZFromPlayer 100 64950| ≤ 65000 / 2 :=
  C4_getZFromPlayer_antisymm_bounded 100 64950 (by norm_num) (by norm_num)
    (by norm_num) (by norm_num)

/-- C5: with the shipped configuration (eye at origin, eyeToScreen 50,
near 30, far 65000, screen-plane depth 5000) and zero stereo offset, the
world point (0, 0, 1000) projects visible at the screen centre
(centred screenX = screenY = 0, i.e. canvas (320, 240)), and a point at
depth 10 < near projects not-visible. -/
theorem C5_projectPoint_scenarios :
    ((projectPoint 5000 0 0 0 0 0 1000 0).visible = true ∧
       (projectPoint 5000 0 0 0 0 0 1000 0).x - 640 / 2 = 0 ∧
       (projectPoint 5000 0 0 0 0 0 1000 0).y - 480 / 2 = 0) ∧
      (projectPoint 5000 0 0 0 0 0 10 0).visible = false := by
  norm_num [projectPoint]

/-- C6: with a non-zero configured screen-plane depth, any world point
whose depth equals that screen-plane depth (and lies in the visible
range) projects to the same screen x under eye offsets `+o` and `-o`
for every non-zero `o`: zero net parallax at the screen plane. -/
theorem C6_zero_parallax_at_screen_plane
    (P ex ey ez wx wy wz o : ℚ) (hP : P ≠ 0) (ho : o ≠ 0)
    (hdepth : wz - ez = P) (hnear : 30 < wz - ez) (hfar : wz - ez ≤ 65000) :
    (projectPoint P ex ey ez wx wy wz o).x =
      (projectPoint P ex ey ez wx wy wz (-o)).x := by
  have h1 : ¬ (wz - ez ≤ 30) := by linarith
  have h2 : ¬ (wz - ez > 65000) := by linarith
  have hno : -o ≠ 0 := neg_ne_zero.2 ho
  unfold projectPoint
  rw [if_neg h1, if_neg h2, if_neg h1, if_neg h2]
  simp only [if_pos (And.intro hP ho), if_pos (And.intro hP hno)]
  rw [hdepth]
  field_simp
  ring

/-- Witness for C6: the shipped screen-plane depth 5000, eye at the
origin, offset 70 (the configured eyeOffset halved), point at depth
5000. -/
theorem C6_witness :
    (projectPoint 5000 0 0 0 0 0 5000 70).x =
      (projectPoint 5000 0 0 0 0 0 5000 (-70)).x :=
  C6_zero_parallax_at_screen_plane 5000 0 0 0 0 0 5000 70
    (by norm_num) (by norm_num) (by norm_num) (by norm_num) (by norm_num)

/-- C8: if either entity is non-collidable, exploding or forming,
`collidesWith` returns false. -/
theorem C8_flags_block_collision (a b : Vis)
    (h : a.checkCollide = false ∨ b.checkCollide = false ∨
         a.isExploding = true ∨ b.isExploding = true ∨
         a.isForming = true ∨ b.isForming = true) :
    collidesWith a b = false := by
  unfold collidesWith
  rcases h with h | h | h | h | h | h <;> simp [h]

/-- Witness for C8: a non-collidable entity against a default entity at
the same position (which would otherwise collide). -/
theorem C8_witness :
    collidesWith { mkVis 0 0 0 with checkCollide := false } (mkVis 0 0 0) = false :=
  C8_flags_block_collision _ _ (Or.inl rfl)

/-- C9: `explode` is idempotent — a second signal while already exploding
changes nothing, for any arguments — and on the first call it disables
collidability, raises the exploding flag, and initialises the animation
record from the impact point translated to entity-local coordinates
`(xHit - x, yHit - y)` with the standard increment 125 and 25 steps. -/
theorem C9_explode_idempotent_and_init (xHit yHit : ℚ) (v : Vis) :
    (v.isExploding = true → explode xHit yHit v = v) ∧
      (v.isExploding = false →
        (explode xHit yHit v).checkCollide = false ∧
          (explode xHit yHit v).isExploding = true ∧
          (explode xHit yHit v).expl =
            some (initExpl v.extentX v.extentY (xHit - v.x) (yHit - v.y) 125 25)) := by
  constructor
  · intro h
    unfold explode
    rw [if_pos h]
  · intro h
    unfold explode
    rw [if_neg (by simp [h])]
    exact ⟨rfl, rfl, rfl⟩

/-- Witness for C9 (both branches at concrete entities). -/
theorem C9_witness :
    (explode 3 4 { mkVis 1 2 0 with isExploding := true } =
        { mkVis 1 2 0 with isExploding := true }) ∧
      ((explode 3 4 (mkVis 1 2 0)).checkCollide = false ∧
        (explode 3 4 (mkVis 1 2 0)).isExploding = true ∧
        (explode 3 4 (mkVis 1 2 0)).expl =
          some (initExpl 100 100 (3 - 1) (4 - 2) 125 25)) :=
  ⟨(C9_explode_idempotent_and_init 3 4 _).1 rfl,
    (C9_explode_idempotent_and_init 3 4 (mkVis 1 2 0)).2 rfl⟩

/-- C10: collision testing is symmetric — `a.collidesWith(b)` equals
`b.collidesWith(a)` for every pair of entities, and so does the
narrow-phase `deepCollide`. -/
theorem C10_collidesWith_symm (a b : Vis) :
    collidesWith a b = collidesWith b a ∧ deepCollide a b = deepCollide b a := by
  refine ⟨?_, deepCollide_symm a b⟩
  have hza : |wrapDist (a.z - b.z)| = |wrapDist (b.z - a.z)| := by
    rw [show a.z - b.z = -(b.z - a.z) by ring, wrapDist_neg, abs_neg]
  have hT : b.thick + |b.vz| + (a.thick + |a.vz|) =
      a.thick + |a.vz| + (b.thick + |b.vz|) := by ring
  have hd := deepCollide_symm a b
  unfold collidesWith
  cases hac : a.checkCollide <;> cases hbc : b.checkCollide <;>
    cases hae : a.isExploding <;> cases hbe : b.isExploding <;>
    cases haf : a.isForming <;> cases hbf : b.isForming <;>
    simp only [Bool.not_true, Bool.not_false, Bool.true_or, Bool.or_true,
      Bool.false_or, Bool.or_false, if_true, if_false, ite_self]
  by_cases h1 : a.x + (a.extentX + |a.vx|) < b.x - (b.extentX + |b.vx|) <;>
    by_cases h2 : a.x - (a.extentX + |a.vx|) > b.x + (b.extentX + |b.vx|) <;>
    by_cases h3 : a.y + (a.extentY + |a.vy|) < b.y - (b.extentY + |b.vy|) <;>
    by_cases h4 : a.y - (a.extentY + |a.vy|) > b.y + (b.extentY + |b.vy|) <;>
    simp only [gt_iff_lt] at h1 h2 h3 h4 ⊢ <;>
    simp only [if_pos, if_neg, h1, h2, h3, h4, if_true, if_false, ite_true,
      ite_false, not_false_iff, hza, hT, hd, ite_self, if_pos rfl]

/-- C3 counterexample: `deepCollide` tests only the x/y rectangles and
ignores depth entirely, so it can return true while the broad phase of
`collidesWith` rejects in phase 1 on the z axis.  Two default entities at
the same x/y but 30000 apart in depth (combined extended thickness 60):
narrow phase true, `collidesWith` false. -/
theorem C3_counterexample :
    deepCollide (mkVis 0 0 0) (mkVis 0 0 30000) = true ∧
      collidesWith (mkVis 0 0 0) (mkVis 0 0 30000) = false := by
  constructor
  · norm_num [deepCollide, mkVis, defaultRects, rectPairHit]
  · norm_num [collidesWith, mkVis, wrapDist]

/-- C3 (amended): for entities whose collision rectangles all lie inside
their extent boxes (true of the base class and of every subtype shape
list), a positive narrow-phase `deepCollide` result implies that the
velocity-extended broad-phase tests of `collidesWith` report overlap on
the x and y axes — phase 1 can then reject only on the depth axis, which
the narrow phase does not examine. -/
theorem C3_narrow_implies_broad_xy (a b : Vis)
    (hA : RectsWithin a) (hB : RectsWithin b)
    (hdeep : deepCollide a b = true) :
    ¬ (a.x + (a.extentX + |a.vx|) < b.x - (b.extentX + |b.vx|)) ∧
      ¬ (a.x - (a.extentX + |a.vx|) > b.x + (b.extentX + |b.vx|)) ∧
      ¬ (a.y + (a.extentY + |a.vy|) < b.y - (b.extentY + |b.vy|)) ∧
      ¬ (a.y - (a.extentY + |a.vy|) > b.y + (b.extentY + |b.vy|)) := by
  unfold deepCollide at hdeep
  simp only [List.any_eq_true] at hdeep
  obtain ⟨r1, hr1, r2, hr2, hhit⟩ := hdeep
  unfold rectPairHit at hhit
  simp only [Bool.and_eq_true, Bool.not_eq_true', decide_eq_false_iff_not,
    not_lt, gt_iff_lt] at hhit
  obtain ⟨⟨⟨hx1, hx2⟩, hy1⟩, hy2⟩ := hhit
  obtain ⟨hc1a, hc2a, hc3a, hc4a⟩ := hA r1 hr1
  obtain ⟨hc1b, hc2b, hc3b, hc4b⟩ := hB r2 hr2
  have hvxa : (0 : ℚ) ≤ |a.vx| := abs_nonneg _
  have hvxb : (0 : ℚ) ≤ |b.vx| := abs_nonneg _
  have hvya : (0 : ℚ) ≤ |a.vy| := abs_nonneg _
  have hvyb : (0 : ℚ) ≤ |b.vy| := abs_nonneg _
  refine ⟨?_, ?_, ?_, ?_⟩ <;> simp only [not_lt, gt_iff_lt] <;> linarith

/-- Witness for C3: two overlapping default entities at the origin. -/
theorem C3_witness :
    ¬ ((mkVis 0 0 0).x + ((mkVis 0 0 0).extentX + |(mkVis 0 0 0).vx|) <
        (mkVis 50 50 0).x - ((mkVis 50 50 0).extentX + |(mkVis 50 50 0).vx|)) ∧
      ¬ ((mkVis 0 0 0).x - ((mkVis 0 0 0).extentX + |(mkVis 0 0 0).vx|) >
        (mkVis 50 50 0).x + ((mkVis 50 50 0).extentX + |(mkVis 50 50 0).vx|)) ∧
      ¬ ((mkVis 0 0 0).y + ((mkVis 0 0 0).extentY + |(mkVis 0 0 0).vy|) <
        (mkVis 50 50 0).y - ((mkVis 50 50 0).extentY + |(mkVis 50 50 0).vy|)) ∧
      ¬ ((mkVis 0 0 0).y - ((mkVis 0 0 0).extentY + |(mkVis 0 0 0).vy|) >
        (mkVis 50 50 0).y + ((mkVis 50 50 0).extentY + |(mkVis 50 50 0).vy|)) :=
  C3_narrow_implies_broad_xy (mkVis 0 0 0) (mkVis 50 50 0)
    (by intro r hr; simp [mkVis, defaultRects] at hr; simp [hr, mkVis])
    (by intro r hr; simp [mkVis, defaultRects] at hr; simp [hr, mkVis])
    (by norm_num [deepCollide, mkVis, defaultRects, rectPairHit])

/-- C7 counterexample: the draw eligibility test of `Tunnel.drawObjects`
is `relZ > near && relZ < far` — strict at the near plane, not
near-inclusive.  An entity at periodic relative depth exactly
`near = 30` is NOT drawn, contradicting the claimed `[near, far)`. -/
theorem C7_counterexample :
    getZFromPlayer (mkVis 0 0 30).z 0 = 30 ∧
      drawObjects 0 [mkVis 0 0 30] = [] := by
  constructor
  · norm_num [getZFromPlayer, mkVis, wrapDist]
  · simp only [drawObjects, List.mergeSort_singleton, List.filter]
    norm_num [getZFromPlayer, mkVis, wrapDist]

/-- C7 (amended): the draw pass orders the drawn entities by descending
periodic relative depth (farthest first), and an entity of the manager's
list is drawn exactly when its periodic relative depth lies strictly
between the near and far planes: `(30, 65000)`, near-EXCLUSIVE. -/
theorem C7_draw_order_and_range (playerZ : ℚ) (objs : List Vis) :
    List.Pairwise
      (fun a b => getZFromPlayer b.z playerZ ≤ getZFromPlayer a.z playerZ)
      (drawObjects playerZ objs) ∧
      ∀ o, o ∈ drawObjects playerZ objs ↔
        o ∈ objs ∧ 30 < getZFromPlayer o.z playerZ ∧
          getZFromPlayer o.z playerZ < 65000 := by
  constructor
  · have h := @List.sorted_mergeSort Vis
      (fun a b : Vis => decide (getZFromPlayer b.z playerZ ≤ getZFromPlayer a.z playerZ))
      (fun a b c hab hbc => by
        simp only [decide_eq_true_eq] at *
        exact le_trans hbc hab)
      (fun a b => by
        simp only [Bool.or_eq_true, decide_eq_true_eq]
        exact le_total _ _) objs
    have h2 : List.Pairwise
        (fun a b => getZFromPlayer b.z playerZ ≤ getZFromPlayer a.z playerZ)
        (objs.mergeSort fun a b =>
          decide (getZFromPlayer b.z playerZ ≤ getZFromPlayer a.z playerZ)) :=
      h.imp (by simp)
    exact h2.filter _
  · intro o
    unfold drawObjects
    simp only [List.mem_filter, List.mem_mergeSort, Bool.and_eq_true,
      decide_eq_true_eq, gt_iff_lt, and_assoc]

/-- C1 counterexample: with the standard formation parameters of
`Tunnel.addObject` (`distIncr = 200`, `lastStep = 15`) on an entity with
extents 100, running `incrExpl` for the full 15 steps leaves lane 0 at
`2 · baseOffset = 6000`, not 0: `initForm` seeds lane 0 with lane 1's
preset `-2·baseOffset`, but the inward walk of `incrExpl` applies a
`4×` increment to lane 0 (it is three lanes from hit lane 3), so lane 0
overshoots zero by `2·baseOffset`. -/
theorem C1_counterexample :
    (incrStep^[15] (initForm 100 100 200 15)).xOffset 0 = 6000 ∧
      (6000 : ℚ) ≠ 0 := by
  have h := (formIter_offsets 100 100 200 15 15).2.2.2.1.1
  constructor
  · rw [h]; norm_num
  · norm_num

/-- C1 (amended): for every positive increment, step count and extents,
initialising the formation preset and applying `incrExpl` exactly
`lastStep` times returns lanes 1–4 of both axes exactly to zero, while
lane 0 of each axis ends at `2 · lastStep · distIncr ≠ 0` (its preset
copies lane 1's `-2·baseOffset` but its per-step increment is `4×`, not
`2×`). -/
theorem C1_formation_roundtrip (extX extY D : ℚ) (n : ℕ)
    (hD : 0 < D) (hn : 0 < n) (hx : 0 < extX) (hy : 0 < extY) :
    ((incrStep^[n] (initForm extX extY D n)).xOffset 1 = 0 ∧
        (incrStep^[n] (initForm extX extY D n)).xOffset 2 = 0 ∧
        (incrStep^[n] (initForm extX extY D n)).xOffset 3 = 0 ∧
        (incrStep^[n] (initForm extX extY D n)).xOffset 4 = 0 ∧
        (incrStep^[n] (initForm extX extY D n)).yOffset 1 = 0 ∧
        (incrStep^[n] (initForm extX extY D n)).yOffset 2 = 0 ∧
        (incrStep^[n] (initForm extX extY D n)).yOffset 3 = 0 ∧
        (incrStep^[n] (initForm extX extY D n)).yOffset 4 = 0) ∧
      (incrStep^[n] (initForm extX extY D n)).xOffset 0 = 2 * ((n : ℚ) * D) ∧
      (incrStep^[n] (initForm extX extY D n)).yOffset 0 = 2 * ((n : ℚ) * D) ∧
      (incrStep^[n] (initForm extX extY D n)).xOffset 0 ≠ 0 := by
  obtain ⟨-, -, -, ⟨hx0, hx1, hx2, hx3, hx4⟩, ⟨hy0, hy1, hy2, hy3, hy4⟩⟩ :=
    formIter_offsets extX extY D n n
  have hnQ : (0 : ℚ) < (n : ℚ) := by exact_mod_cast hn
  refine ⟨⟨?_, ?_, ?_, ?_, ?_, ?_, ?_, ?_⟩, ?_, ?_, ?_⟩
  · rw [hx1]; ring
  · rw [hx2]; ring
  · rw [hx3]; ring
  · rw [hx4]; ring
  · rw [hy1]; ring
  · rw [hy2]; ring
  · rw [hy3]; ring
  · rw [hy4]; ring
  · rw [hx0]; ring
  · rw [hy0]; ring
  · rw [hx0]
    have : (0 : ℚ) < (n : ℚ) * D := mul_pos hnQ hD
    intro hcontra
    nlinarith

/-- Witness for C1 at the standard formation parameters. -/
theorem C1_witness :
    ((incrStep^[15] (initForm 100 100 200 15)).xOffset 1 = 0 ∧
        (incrStep^[15] (initForm 100 100 200 15)).xOffset 2 = 0 ∧
        (incrStep^[15] (initForm 100 100 200 15)).xOffset 3 = 0 ∧
        (incrStep^[15] (initForm 100 100 200 15)).xOffset 4 = 0 ∧
        (incrStep^[15] (initForm 100 100 200 15)).yOffset 1 = 0 ∧
        (incrStep^[15] (initForm 100 100 200 15)).yOffset 2 = 0 ∧
        (incrStep^[15] (initForm 100 100 200 15)).yOffset 3 = 0 ∧
        (incrStep^[15] (initForm 100 100 200 15)).yOffset 4 = 0) ∧
      (incrStep^[15] (initForm 100 100 200 15)).xOffset 0 = 2 * ((15 : ℕ) * 200 : ℚ) ∧
      (incrStep^[15] (initForm 100 100 200 15)).yOffset 0 = 2 * ((15 : ℕ) * 200 : ℚ) ∧
      (incrStep^[15] (initForm 100 100 200 15)).xOffset 0 ≠ 0 :=
  C1_formation_roundtrip 100 100 200 15 (by norm_num) (by norm_num)
    (by norm_num) (by norm_num)

/-- C2 counterexample: `SShot.update` integrates z but never wraps it.
The concrete saucer shot `sshotCex` starts at z = 64000 ∈ [0, 65000) and
after one 16.67 ms update sits at z = 66000 ∉ [0, 65000). -/
theorem C2_counterexample :
    inTunnelZ sshotCex.core.z ∧
      (sshotUpdate (1667 / 100) sshotCex).core.z = 66000 ∧
      ¬ inTunnelZ (sshotUpdate (1667 / 100) sshotCex).core.z := by
  refine ⟨by norm_num [inTunnelZ, sshotCex, mkVis], ?_, ?_⟩ <;>
    norm_num [inTunnelZ, sshotUpdate, sshotCex, mkVis, dtScaleOf]

/-- C2 (amended): every listed entity subtype EXCEPT `SShot` keeps z in
[0, 65000) across `update(dt)` for `dt ≥ 0` (Cross, Saucer, Aphid,
Blocker, Thing, TestSquare, PShot, Player — either the update ends in a
z wrap, or it leaves z untouched); `SShot.update` performs no wrap, so
the invariant fails for it (see the counterexample). -/
theorem C2_z_invariant_except_sshot :
    (∀ dt (v : Vis), 0 ≤ dt → inTunnelZ v.z → inTunnelZ (crossUpdate dt v).z) ∧
      (∀ hasPlayer px py pz rShoot rDrift dt (s : SaucerState), 0 ≤ dt →
        inTunnelZ s.core.z →
        inTunnelZ (saucerUpdate hasPlayer px py pz rShoot rDrift dt s).core.z) ∧
      (∀ fvx fvy fvz dt (a : Vis), 0 ≤ dt → inTunnelZ a.z →
        inTunnelZ (aphidUpdate fvx fvy fvz dt a).z) ∧
      (∀ dt (v : Vis), 0 ≤ dt → inTunnelZ v.z → inTunnelZ (blockerUpdate dt v).z) ∧
      (∀ dt (t : ThingState), 0 ≤ dt → inTunnelZ t.core.z →
        inTunnelZ (thingUpdate dt t).core.z) ∧
      (∀ dt (v : Vis), 0 ≤ dt → inTunnelZ v.z → inTunnelZ (testSquareUpdate dt v).z) ∧
      (∀ dt (s : PShotState), 0 ≤ dt → inTunnelZ s.core.z →
        inTunnelZ (pshotUpdate dt s).core.z) ∧
      (∀ mf mb powSlow dt (p : Vis), 0 ≤ dt → inTunnelZ p.z →
        inTunnelZ (playerUpdate mf mb powSlow dt p).z) :=
  ⟨fun dt v _ h => crossUpdate_z dt v h,
    fun hp px py pz rs rd dt s _ h => saucerUpdate_z hp px py pz rs rd dt s h,
    fun fvx fvy fvz dt a _ h => aphidUpdate_z fvx fvy fvz dt a h,
    fun dt v _ h => blockerUpdate_z dt v h,
    fun dt t _ _ => thingUpdate_z dt t,
    fun dt v _ _ => testSquareUpdate_z dt v,
    fun dt s _ _ => pshotUpdate_z dt s,
    fun mf mb powSlow dt p _ _ => playerUpdate_z mf mb powSlow dt p⟩

/-- Witness for C2: each conjunct applied at a concrete state with
z = 100 and dt = 16.67. -/
theorem C2_witness :
    inTunnelZ (crossUpdate (1667 / 100) (mkVis 0 0 100)).z ∧
      inTunnelZ ((saucerUpdate true 0 0 0 false false (1667 / 100)
        { core := mkVis 0 0 100, fShotTimer := 0, fShotCount := 0 }).core.z) ∧
      inTunnelZ (aphidUpdate 1 1 1 (1667 / 100) (mkVis 0 0 100)).z ∧
      inTunnelZ (blockerUpdate (1667 / 100) (mkVis 0 0 100)).z ∧
      inTunnelZ ((thingUpdate (1667 / 100)
        { core := mkVis 0 0 100, bobPhase := 0, bobSpeed := 3 / 1000 }).core.z) ∧
      inTunnelZ (testSquareUpdate (1667 / 100) (mkVis 0 0 100)).z ∧
      inTunnelZ ((pshotUpdate (1667 / 100)
        { core := mkVis 0 0 100, distanceTraveled := 0 }).core.z) ∧
      inTunnelZ (playerUpdate false false 1 (1667 / 100) (mkVis 0 0 100)).z := by
  have hz : inTunnelZ (mkVis 0 0 100).z := by norm_num [inTunnelZ, mkVis]
  have hdt : (0 : ℚ) ≤ 1667 / 100 := by norm_num
  exact ⟨C2_z_invariant_except_sshot.1 _ _ hdt hz,
    C2_z_invariant_except_sshot.2.1 true 0 0 0 false false _ _ hdt hz,
    C2_z_invariant_except_sshot.2.2.1 1 1 1 _ _ hdt hz,
    C2_z_invariant_except_sshot.2.2.2.1 _ _ hdt hz,
    C2_z_invariant_except_sshot.2.2.2.2.1 _ _ hdt hz,
    C2_z_invariant_except_sshot.2.2.2.2.2.1 _ _ hdt hz,
    C2_z_invariant_except_sshot.2.2.2.2.2.2.1 _ _ hdt hz,
    C2_z_invariant_except_sshot.2.2.2.2.2.2.2 false false 1 _ _ hdt hz⟩

/-- Witness instantiating C7 on a singleton list. -/
theorem C7_witness :
    List.Pairwise
      (fun a b => getZFromPlayer b.z 0 ≤ getZFromPlayer a.z 0)
      (drawObjects 0 [mkVis 0 0 1000]) ∧
      ∀ o, o ∈ drawObjects 0 [mkVis 0 0 1000] ↔
        o ∈ [mkVis 0 0 1000] ∧ 30 < getZFromPlayer o.z 0 ∧
          getZFromPlayer o.z 0 < 65000 :=
  C7_draw_order_and_range 0 [mkVis 0 0 1000]

end ZGraf
